import Mathlib

/-!
Verification of the session gate, notes CRUD facade and error translation of the
note-taking application, shallowly embedded from `src/lib/api.ts`,
`src/contexts/AuthContext.tsx` and the SQL migration creating the `notes` table.

Strings model JavaScript strings (the inputs of interest are ASCII, where `jsTrim`
below and `String.length` agree with the JavaScript `trim()` and `.length`).
Timestamps are epoch numbers. Remote calls are modelled by passing the remote
response (or the remote table state) explicitly.
-/

deriving instance DecidableEq for Except

namespace NotesApp

/-- The JavaScript `String.prototype.trim()` function: removes leading and trailing
whitespace. Written structurally on the character list so it is kernel-computable;
it agrees with JavaScript on the ASCII whitespace relevant here. -/
def jsTrim (s : String) : String :=
  ⟨((s.data.dropWhile Char.isWhitespace).reverse.dropWhile Char.isWhitespace).reverse⟩

/-- The authenticated user carried inside a session (`session.user`), reduced to
the field the facade reads (`session.user.id`). -/
structure User where
  id : String
deriving DecidableEq, Repr

/-- A session as returned by the platform call `getSession()`:
`access_token` (the empty string models a falsy/missing token),
`user` (`none` models a null user) and `expires_at` in epoch seconds
(`none` models an absent field; note JavaScript treats the number `0` as falsy). -/
structure Session where
  access_token : String
  user : Option User
  expires_at : Option Nat
deriving DecidableEq, Repr

/-- The outcome of the platform call `getSession()`: an error with a message, or
an optional session (`none` when no session is stored). -/
inductive GetSessionResult where
  | err (msg : String)
  | ok (session : Option Session)
deriving DecidableEq, Repr

/-- A session that passed `getAuthenticatedSession`: the token is nonempty and the
user present. -/
structure ValidSession where
  access_token : String
  user : User
deriving DecidableEq, Repr

/-- Embeds `getAuthenticatedSession` (api.ts lines 13-35): rejects a platform error,
a null session or falsy token, a null user, and a truthy (nonzero) expiry in the
past. -/
def getAuthenticatedSession : GetSessionResult → Nat → Except String ValidSession
  | .err msg, _ => .error ("Authentication error: " ++ msg)
  | .ok none, _ => .error "No valid session found. Please log in again."
  | .ok (some s), now =>
    if s.access_token = "" then
      .error "No valid session found. Please log in again."
    else
      match s.user with
      | none => .error "User not authenticated. Please log in again."
      | some u =>
        match s.expires_at with
        | some e =>
          if e ≠ 0 ∧ e < now then .error "Session expired. Please log in again."
          else .ok ⟨s.access_token, u⟩
        | none => .ok ⟨s.access_token, u⟩

/-- A remote (PostgREST-style) error object: optional `code` and optional `message`. -/
structure RemoteError where
  code : Option String
  message : Option String
deriving DecidableEq, Repr

/-- A remote response `{ data, error }` as destructured by `makeAuthenticatedRequest`. -/
structure RemoteResponse (T : Type) where
  data : Option T
  error : Option RemoteError
deriving DecidableEq, Repr

/-- `leadsWith needle hay` is true when `needle` occurs at the start of `hay`. -/
def leadsWith : List Char → List Char → Bool
  | [], _ => true
  | _ :: _, [] => false
  | a :: as, b :: bs => a == b && leadsWith as bs

/-- `containsSeq needle hay` is true when `needle` occurs contiguously inside `hay`. -/
def containsSeq (needle : List Char) : List Char → Bool
  | [] => leadsWith needle []
  | c :: rest => leadsWith needle (c :: rest) || containsSeq needle rest

/-- The JavaScript `s.includes(sub)` test on strings. -/
def strIncludes (s sub : String) : Bool :=
  containsSeq sub.data s.data

/-- The JavaScript expression `error.message?.includes(sub)`: false when the message
is absent. -/
def msgIncludes (m : Option String) (sub : String) : Bool :=
  match m with
  | some s => strIncludes s sub
  | none => false

/-- The fallback message of `makeAuthenticatedRequest` when the remote error carries
no (or an empty, hence falsy) message. -/
def fallbackMsg : String := "An error occurred while processing your request."

/-- Embeds the error-translation branch of `makeAuthenticatedRequest`
(api.ts lines 47-57): token errors first, then row-security errors, then the
original message with a fallback for a falsy message. -/
def translateError (e : RemoteError) : String :=
  if e.code == some "PGRST301" || msgIncludes e.message "JWT" then
    "Authentication failed. Please log in again."
  else if e.code == some "PGRST116" || msgIncludes e.message "RLS" then
    "Access denied. You can only access your own notes."
  else
    match e.message with
    | some m => if m == "" then fallbackMsg else m
    | none => fallbackMsg

/-- Embeds `makeAuthenticatedRequest` (api.ts lines 38-65): validates the session
before the operation, translates a remote error, and rejects a null `data`. -/
def makeAuthenticatedRequest {T : Type} (sess : GetSessionResult) (now : Nat)
    (op : RemoteResponse T) : Except String T :=
  match getAuthenticatedSession sess now with
  | .error e => .error e
  | .ok _ =>
    match op.error with
    | some e => .error (translateError e)
    | none =>
      match op.data with
      | some d => .ok d
      | none => .error "No data returned from the server."

/-- A row of the `notes` table, per the migration: `id`, `title`, `content`,
`user_id`, and epoch timestamps `created_at`, `updated_at`. -/
structure NoteRow where
  id : String
  title : String
  content : String
  user_id : String
  created_at : Nat
  updated_at : Nat
deriving DecidableEq, Repr

/-- The descending-`updated_at` order requested by `getNotes`. -/
def updatedDesc (a b : NoteRow) : Prop := b.updated_at ≤ a.updated_at

instance : DecidableRel updatedDesc :=
  fun a b => inferInstanceAs (Decidable (b.updated_at ≤ a.updated_at))

instance : IsTotal NoteRow updatedDesc :=
  ⟨fun a b => Nat.le_total b.updated_at a.updated_at⟩

instance : IsTrans NoteRow updatedDesc :=
  ⟨fun _ _ _ h1 h2 => Nat.le_trans h2 h1⟩

/-- Modelled from the spec: the remote `select` ordered by `updated_at` descending,
under the row-security policy of the migration, which restricts reads to rows whose
`user_id` equals the identity of the caller. The platform executing the query is
not part of the repository sources. -/
def remoteSelectNotes (db : List NoteRow) (uid : String) : List NoteRow :=
  List.insertionSort updatedDesc (db.filter fun r => r.user_id == uid)

/-- Modelled from the spec: the single-object response of the platform for a
`.single()` query — the row when exactly one matches, otherwise a remote error with
code `PGRST116`. The platform producing this response is not part of the repository
sources. -/
def singleRow (rows : List NoteRow) : RemoteResponse NoteRow :=
  match rows with
  | [row] => { data := some row, error := none }
  | _ =>
    { data := none,
      error := some { code := some "PGRST116",
                      message := some "JSON object requested, multiple (or no) rows returned" } }

/-- Embeds `notesApi.getNotes` (api.ts lines 68-78): the inner operation re-validates
the session, then issues the ordered select; the result flows through
`makeAuthenticatedRequest`. -/
def getNotes (sess : GetSessionResult) (now : Nat) (db : List NoteRow) :
    Except String (List NoteRow) :=
  match getAuthenticatedSession sess now with
  | .error e => .error e
  | .ok s =>
    makeAuthenticatedRequest sess now
      { data := some (remoteSelectNotes db s.user.id), error := none }

/-- The row submitted by `createNote`: trimmed title and content, `user_id` forced to
the user id of the session, with the server-assigned id and timestamp defaults of
the migration (`newId` stands for the generated uuid, `now` for the server clock). -/
def insertedRow (s : ValidSession) (now : Nat) (newId title content : String) : NoteRow :=
  { id := newId, title := jsTrim title, content := jsTrim content,
    user_id := s.user.id, created_at := now, updated_at := now }

/-- Embeds `notesApi.createNote` (api.ts lines 80-108): validation on the untrimmed
inputs, then session validation, then the insert of the trimmed payload followed by
the select-single. Returns the facade result and the new table state. -/
def createNote (sess : GetSessionResult) (now : Nat) (db : List NoteRow)
    (newId title content : String) : Except String NoteRow × List NoteRow :=
  if jsTrim title = "" then (.error "Note title is required.", db)
  else if title.length > 100 then (.error "Note title must be less than 100 characters.", db)
  else if content.length > 10000 then
    (.error "Note content must be less than 10,000 characters.", db)
  else
    match getAuthenticatedSession sess now with
    | .error e => (.error e, db)
    | .ok s =>
      let row := insertedRow s now newId title content
      (makeAuthenticatedRequest sess now { data := some row, error := none }, db ++ [row])

/-- Embeds `notesApi.updateNote` (api.ts lines 110-144): validation on the untrimmed
inputs, session validation, then the conditional update scoped to
`id AND user_id = session user` followed by the select-single. Returns the facade
result and the new table state. -/
def updateNote (sess : GetSessionResult) (now : Nat) (db : List NoteRow)
    (id title content : String) : Except String NoteRow × List NoteRow :=
  if id = "" then (.error "Note ID is required.", db)
  else if jsTrim title = "" then (.error "Note title is required.", db)
  else if title.length > 100 then (.error "Note title must be less than 100 characters.", db)
  else if content.length > 10000 then
    (.error "Note content must be less than 10,000 characters.", db)
  else
    match getAuthenticatedSession sess now with
    | .error e => (.error e, db)
    | .ok s =>
      let upd : NoteRow → NoteRow := fun r =>
        { r with title := jsTrim title, content := jsTrim content, updated_at := now }
      let matched := (db.filter fun r => r.id == id && r.user_id == s.user.id).map upd
      let db1 := db.map fun r => if r.id == id && r.user_id == s.user.id then upd r else r
      (makeAuthenticatedRequest sess now (singleRow matched), db1)

/-- Embeds `notesApi.deleteNote` (api.ts lines 146-164): id validation, session
validation, the conditional delete scoped to `id AND user_id = session user`, and an
operation result of `{ data: null, error: result.error }` (the modelled conditional
delete itself reports no error). Returns the facade result and the new table state. -/
def deleteNote (sess : GetSessionResult) (now : Nat) (db : List NoteRow)
    (id : String) : Except String Unit × List NoteRow :=
  if id = "" then (.error "Note ID is required.", db)
  else
    match getAuthenticatedSession sess now with
    | .error e => (.error e, db)
    | .ok s =>
      let db1 := db.filter fun r => !(r.id == id && r.user_id == s.user.id)
      (makeAuthenticatedRequest sess now
        ({ data := none, error := none } : RemoteResponse Unit), db1)

/-- Embeds `notesApi.verifyNoteOwnership` (api.ts lines 167-182): any session error
is swallowed to `false`; otherwise the single-row select scoped to
`id AND user_id = session user` yields `!error && data !== null`. -/
def verifyNoteOwnership (sess : GetSessionResult) (now : Nat) (db : List NoteRow)
    (noteId : String) : Bool :=
  match getAuthenticatedSession sess now with
  | .error _ => false
  | .ok s =>
    let resp := singleRow (db.filter fun r => r.id == noteId && r.user_id == s.user.id)
    resp.error.isNone && resp.data.isSome

/-- The local auth state held by the auth context: `user` and `isAuthenticated`. -/
structure AuthState where
  user : Option User
  isAuthenticated : Bool
deriving DecidableEq, Repr

/-- Embeds `signOut` (AuthContext.tsx lines 259-276): the remote sign-out result is
inspected first; on an error the error is re-thrown (via the catch block) and the
local state is left as it was, and only on success are `user` and `isAuthenticated`
cleared. -/
def signOut (st : AuthState) (remoteError : Option String) :
    Except String Unit × AuthState :=
  match remoteError with
  | some e => (.error e, st)
  | none => (.ok (), { user := none, isAuthenticated := false })

/-- The validation-error messages of the facade (bad input, thrown before any
session or remote interaction). -/
def isValidationError (m : String) : Prop :=
  m = "Note title is required." ∨
  m = "Note title must be less than 100 characters." ∨
  m = "Note content must be less than 10,000 characters." ∨
  m = "Note ID is required."

instance : DecidablePred isValidationError := fun m => by
  unfold isValidationError
  infer_instance

/-- A concrete user used by concrete instance theorems. -/
def u1 : User := ⟨"u1"⟩

/-- A concrete stored session for user `u1`, valid at time 1000 (expiry 2000). -/
def sess1 : GetSessionResult := .ok (some ⟨"tok", some u1, some 2000⟩)

/-- The validated form of `sess1`. -/
def vsess1 : ValidSession := ⟨"tok", u1⟩

/-- A concrete note owned by user `u1`. -/
def note1 : NoteRow := ⟨"n1", "t", "c", "u1", 100, 100⟩

/-- A stored session whose expiry timestamp is the epoch value 0, which JavaScript
treats as falsy. -/
def sessZeroExp : GetSessionResult := .ok (some ⟨"tok", some u1, some 0⟩)

/-- A title of 101 repeated letters. -/
def titleA101 : String := ⟨List.replicate 101 'a'⟩

/-- A content of 10001 repeated letters. -/
def contentA10001 : String := ⟨List.replicate 10001 'a'⟩

/-- A title of 50 spaces followed by 60 letters: untrimmed length 110, trimmed
length 60. -/
def longPadded : String := ⟨List.replicate 50 ' ' ++ List.replicate 60 'a'⟩

/-- Two strings differ when the heads of their character lists differ. -/
theorem ne_of_data_head {s t : String} {cs ct : Char}
    (hs : s.data.head? = some cs) (ht : t.data.head? = some ct) (hne : cs ≠ ct) : s ≠ t := by
  intro h
  subst h
  rw [hs] at ht
  exact hne (Option.some.inj ht)

/-- Messages produced from a platform session error all start with the letter A. -/
theorem authPre_head (msg : String) :
    ("Authentication error: " ++ msg).data.head? = some 'A' := by
  rw [String.data_append]
  rfl

/-- The single-row response is a success with data exactly when the row list is a
singleton. -/
theorem singleRow_ok_iff (l : List NoteRow) :
    ((singleRow l).error.isNone && (singleRow l).data.isSome) = true ↔ ∃ r, l = [r] := by
  match l with
  | [] => simp [singleRow]
  | [r] => simp [singleRow]
  | a :: b :: t => simp [singleRow]

/-- A message carrying the session-error prevent is never a validation message. -/
theorem isValidationError_authPre (msg : String) :
    ¬ isValidationError ("Authentication error: " ++ msg) := by
  have hh := authPre_head msg
  rintro (h | h | h | h) <;>
    exact ne_of_data_head hh (by rfl) (by decide) h

/-- No session-gate error message is a validation message. -/
theorem getAuthenticatedSession_error_not_validation (sess : GetSessionResult) (now : Nat)
    (e : String) (h : getAuthenticatedSession sess now = .error e) : ¬ isValidationError e := by
  cases sess with
  | err msg =>
    simp only [getAuthenticatedSession, Except.error.injEq] at h
    rw [← h]
    exact isValidationError_authPre msg
  | ok os =>
    cases os with
    | none =>
      simp only [getAuthenticatedSession, Except.error.injEq] at h
      rw [← h]; decide
    | some s =>
      simp only [getAuthenticatedSession] at h
      split at h
      · rw [← Except.error.inj h]; decide
      · split at h
        · rw [← Except.error.inj h]; decide
        · split at h
          · split at h
            · rw [← Except.error.inj h]; decide
            · exact absurd h (by simp)
          · exact absurd h (by simp)

/-- The zero-row single-object remote error translates to the access-denied
message. -/
theorem translate_pgrst116 :
    translateError ({ code := some "PGRST116",
                      message := some "JSON object requested, multiple (or no) rows returned" } :
                     RemoteError) =
    "Access denied. You can only access your own notes." := by decide

/-- The 10001-letter content has length 10001. -/
theorem contentA10001_length : contentA10001.length = 10001 := by
  unfold contentA10001
  rw [String.length_mk, List.length_replicate]

/-- Claim C1 counterexample: with a valid session for the owner, the first delete of
an existing owned note already fails with the generic no-data message (so no delete
call ever reports success), a repeat delete fails with the same message, and an
update matching zero rows (absent id, or id owned by someone else) fails with the
access-denied message — in no case is a not-found error produced, contrary to the
claim that these cases fail with NotFoundError after a successful delete. -/
theorem delete_not_notFound_counterexample :
    deleteNote sess1 1000 [note1] "n1" = (.error "No data returned from the server.", []) ∧
    deleteNote sess1 1000 [] "n1" = (.error "No data returned from the server.", []) ∧
    (updateNote sess1 1000 [] "n1" "t2" "c2").1 =
      .error "Access denied. You can only access your own notes." ∧
    (updateNote sess1 1000 [note1] "nX" "t2" "c2").1 =
      .error "Access denied. You can only access your own notes." := by decide

/-- Claim C1 (amended): with a valid session and valid inputs, an update whose
condition `id AND owner = current identity` matches zero rows (the note does not
exist or is owned by a different identity) fails with the access-denied translation
of the remote zero-row error and leaves the table unchanged — the error does not
distinguish the two cases; and a second delete after a first delete fails with the
generic no-data message (as every delete does) and has no further side effect. -/
theorem update_delete_zero_rows_amended (sess : GetSessionResult) (now : Nat)
    (db : List NoteRow) (s : ValidSession) (h : getAuthenticatedSession sess now = .ok s)
    (id title content : String) (hid : id ≠ "") (ht : jsTrim title ≠ "")
    (hlt : ¬ title.length > 100) (hlc : ¬ content.length > 10000)
    (hzero : ∀ r ∈ db, ¬(r.id = id ∧ r.user_id = s.user.id)) :
    updateNote sess now db id title content =
      (.error "Access denied. You can only access your own notes.", db) ∧
    (∀ db0 : List NoteRow,
      deleteNote sess now ((deleteNote sess now db0 id).2) id =
        (.error "No data returned from the server.", (deleteNote sess now db0 id).2)) := by
  constructor
  · simp only [updateNote, if_neg hid, if_neg ht, if_neg hlt, if_neg hlc, h]
    have hfil : (db.filter fun r => r.id == id && r.user_id == s.user.id) = [] := by
      rw [List.filter_eq_nil_iff]
      intro r hr
      have := hzero r hr
      simp only [Bool.and_eq_true, beq_iff_eq, not_and] at this ⊢
      exact fun h1 h2 => this h1 h2
    rw [hfil]
    have hmap : (db.map fun r =>
        if r.id == id && r.user_id == s.user.id then
          { r with title := jsTrim title, content := jsTrim content, updated_at := now }
        else r) = db := by
      conv_rhs => rw [← List.map_id db]
      apply List.map_congr_left
      intro r hr
      have hz := hzero r hr
      have hb : (r.id == id && r.user_id == s.user.id) ≠ true := by
        intro hc
        simp only [Bool.and_eq_true, beq_iff_eq] at hc
        exact hz hc
      rw [if_neg hb]
      rfl
    rw [hmap]
    simp only [singleRow, List.map_nil, makeAuthenticatedRequest, h, translate_pgrst116]
  · intro db0
    simp only [deleteNote, if_neg hid, h]
    simp only [List.filter_filter, Bool.and_self]
    simp only [makeAuthenticatedRequest, h]

/-- Witness for the amended claim C1 at a concrete zero-row update. -/
theorem update_delete_zero_rows_amended_witness :
    updateNote sess1 1000 [] "nX" "t" "c" =
      (.error "Access denied. You can only access your own notes.", []) :=
  (update_delete_zero_rows_amended sess1 1000 [] vsess1 rfl "nX" "t" "c" (by decide) (by decide)
    (by decide) (by decide) (by simp)).1

/-- Claim C2: the inner operation of deleteNote always hands `data = null` to
`makeAuthenticatedRequest`, which throws whenever data is null, so deleteNote with a
valid session and a nonempty id throws the no-data error even though the remote
delete completed without error; moreover every invocation of deleteNote, whatever
the session state or id, results in some error. -/
theorem deleteNote_always_throws (sess : GetSessionResult) (now : Nat) (db : List NoteRow)
    (id : String) (s : ValidSession) (h : getAuthenticatedSession sess now = .ok s)
    (hid : id ≠ "") :
    (deleteNote sess now db id).1 = .error "No data returned from the server." ∧
    (∀ (T : Type) (sess2 : GetSessionResult) (now2 : Nat) (op : RemoteResponse T),
      op.data = none → ∃ m, makeAuthenticatedRequest sess2 now2 op = .error m) ∧
    (∀ (sess2 : GetSessionResult) (now2 : Nat) (db2 : List NoteRow) (id2 : String),
      ∃ m, (deleteNote sess2 now2 db2 id2).1 = .error m) := by
  refine ⟨?_, ?_, ?_⟩
  · simp [deleteNote, if_neg hid, h, makeAuthenticatedRequest]
  · intro T sess2 now2 op hop
    unfold makeAuthenticatedRequest
    cases hs2 : getAuthenticatedSession sess2 now2 with
    | error e => exact ⟨e, rfl⟩
    | ok s2 =>
      cases hoe : op.error with
      | some e => exact ⟨translateError e, rfl⟩
      | none => rw [hop]; exact ⟨_, rfl⟩
  · intro sess2 now2 db2 id2
    unfold deleteNote
    by_cases h2 : id2 = ""
    · rw [if_pos h2]; exact ⟨_, rfl⟩
    · rw [if_neg h2]
      cases hs2 : getAuthenticatedSession sess2 now2 with
      | error e => exact ⟨e, rfl⟩
      | ok s2 =>
        simp only [makeAuthenticatedRequest, hs2]
        exact ⟨_, rfl⟩

/-- Witness for claim C2 at a concrete successful remote delete. -/
theorem deleteNote_always_throws_witness :
    (deleteNote sess1 1000 [note1] "n1").1 = .error "No data returned from the server." :=
  (deleteNote_always_throws sess1 1000 [note1] "n1" vsess1 rfl (by decide)).1

/-- Claim C3 counterexample: when the remote sign-out call returns an error, signOut
re-throws it and the local state (user, isAuthenticated) is NOT cleared, contrary to
the claim of unconditional clearing. -/
theorem signOut_error_counterexample :
    signOut { user := some u1, isAuthenticated := true } (some "network failure") =
      (.error "network failure", { user := some u1, isAuthenticated := true }) ∧
    ({ user := some u1, isAuthenticated := true } : AuthState).user ≠ none := by decide

/-- Claim C3 (amended): signOut clears the local Session state (user and
isAuthenticated) exactly when the remote sign-out call succeeds; on a remote error
the error is re-thrown and the local state is left unchanged. -/
theorem signOut_clears_iff_success (st : AuthState) :
    signOut st none = (.ok (), { user := none, isAuthenticated := false }) ∧
    ∀ e, signOut st (some e) = (.error e, st) :=
  ⟨rfl, fun _ => rfl⟩

/-- Claim C4: createNote fails with a validation-error message exactly when the
title is empty or whitespace-only, the untrimmed title exceeds 100 characters, or
the untrimmed content exceeds 10000 characters; and on validation failure the table
is untouched (no remote call is issued). -/
theorem createNote_validation_iff (sess : GetSessionResult) (now : Nat) (db : List NoteRow)
    (newId title content : String) :
    ((∃ m, (createNote sess now db newId title content).1 = .error m ∧ isValidationError m)
      ↔ (jsTrim title = "" ∨ title.length > 100 ∨ content.length > 10000)) ∧
    ((jsTrim title = "" ∨ title.length > 100 ∨ content.length > 10000) →
      (createNote sess now db newId title content).2 = db) := by
  by_cases h1 : jsTrim title = ""
  · simp only [createNote, if_pos h1]
    exact ⟨⟨fun _ => Or.inl h1, fun _ => ⟨"Note title is required.", rfl, by decide⟩⟩,
      fun _ => by simp⟩
  · by_cases h2 : title.length > 100
    · simp only [createNote, if_neg h1, if_pos h2]
      exact ⟨⟨fun _ => Or.inr (Or.inl h2),
        fun _ => ⟨"Note title must be less than 100 characters.", rfl, by decide⟩⟩,
        fun _ => by simp⟩
    · by_cases h3 : content.length > 10000
      · simp only [createNote, if_neg h1, if_neg h2, if_pos h3]
        exact ⟨⟨fun _ => Or.inr (Or.inr h3),
          fun _ => ⟨"Note content must be less than 10,000 characters.", rfl, by decide⟩⟩,
          fun _ => by simp⟩
      · simp only [createNote, if_neg h1, if_neg h2, if_neg h3]
        refine ⟨⟨?_, ?_⟩, ?_⟩
        · rintro ⟨m, hm, hv⟩
          cases hs : getAuthenticatedSession sess now with
          | error e =>
            rw [hs] at hm
            simp only [Except.error.injEq] at hm
            rw [← hm] at hv
            exact absurd hv (getAuthenticatedSession_error_not_validation sess now e hs)
          | ok s =>
            rw [hs] at hm
            simp only [makeAuthenticatedRequest, hs] at hm
            exact Except.noConfusion hm
        · rintro (h | h | h) <;> first | exact absurd h h1 | exact absurd h h2 | exact absurd h h3
        · rintro (h | h | h) <;> first | exact absurd h h1 | exact absurd h h2 | exact absurd h h3

/-- Witness for claim C4 at the three boundary inputs of the spec. -/
theorem createNote_validation_iff_witness :
    (∃ m, (createNote sess1 1000 [] "n1" "" "x").1 = .error m ∧ isValidationError m) ∧
    (∃ m, (createNote sess1 1000 [] "n1" titleA101 "").1 = .error m ∧ isValidationError m) ∧
    (∃ m, (createNote sess1 1000 [] "n1" "ok" contentA10001).1 = .error m ∧
      isValidationError m) :=
  ⟨(createNote_validation_iff sess1 1000 [] "n1" "" "x").1.mpr (Or.inl (by decide)),
   (createNote_validation_iff sess1 1000 [] "n1" titleA101 "").1.mpr
     (Or.inr (Or.inl (by decide))),
   (createNote_validation_iff sess1 1000 [] "n1" "ok" contentA10001).1.mpr
     (Or.inr (Or.inr (by rw [gt_iff_lt, contentA10001_length]; decide)))⟩

/-- Claim C5 counterexample: a stored session whose expiry timestamp is 0 — a value
in the past — passes the session gate (JavaScript treats 0 as falsy and skips the
expiry check), and the list operation proceeds, contrary to the claim that every
operation fails whenever the expiry timestamp is in the past. -/
theorem session_gate_zero_expiry_counterexample :
    sessZeroExp = .ok (some { access_token := "tok", user := some u1, expires_at := some 0 }) ∧
    (0 : Nat) < 1000 ∧
    getAuthenticatedSession sessZeroExp 1000 = .ok vsess1 ∧
    getNotes sessZeroExp 1000 [note1] = .ok [note1] := by decide

/-- Claim C5 (amended): every facade operation whose input validation passes
surfaces the session-gate error and leaves the table untouched (no remote call)
whenever the gate fails; and the gate fails whenever there is no stored session, an
empty access token, no user, or a nonzero expiry timestamp in the past (a zero
expiry is treated as absent, by JavaScript falsiness). -/
theorem session_gate_amended (sess : GetSessionResult) (now : Nat) (db : List NoteRow)
    (e : String) (h : getAuthenticatedSession sess now = .error e)
    (newId id title content : String)
    (hid : id ≠ "") (ht : jsTrim title ≠ "") (hlt : ¬ title.length > 100)
    (hlc : ¬ content.length > 10000) :
    getNotes sess now db = .error e ∧
    createNote sess now db newId title content = (.error e, db) ∧
    updateNote sess now db id title content = (.error e, db) ∧
    deleteNote sess now db id = (.error e, db) ∧
    (∀ now2, getAuthenticatedSession (.ok none) now2 =
      .error "No valid session found. Please log in again.") ∧
    (∀ now2 (u : Option User) (ea : Option Nat),
      getAuthenticatedSession (.ok (some ⟨"", u, ea⟩)) now2 =
      .error "No valid session found. Please log in again.") ∧
    (∀ now2 (tok : String) (ea : Option Nat), tok ≠ "" →
      getAuthenticatedSession (.ok (some ⟨tok, none, ea⟩)) now2 =
      .error "User not authenticated. Please log in again.") ∧
    (∀ now2 (tok : String) (u : User) (ex : Nat), tok ≠ "" → ex ≠ 0 → ex < now2 →
      getAuthenticatedSession (.ok (some ⟨tok, some u, some ex⟩)) now2 =
      .error "Session expired. Please log in again.") := by
  refine ⟨?_, ?_, ?_, ?_, ?_, ?_, ?_, ?_⟩
  · simp [getNotes, h]
  · simp only [createNote, if_neg ht, if_neg hlt, if_neg hlc, h]
  · simp only [updateNote, if_neg hid, if_neg ht, if_neg hlt, if_neg hlc, h]
  · simp only [deleteNote, if_neg hid, h]
  · intro now2; rfl
  · intro now2 u ea; simp [getAuthenticatedSession]
  · intro now2 tok ea htok; simp [getAuthenticatedSession, htok]
  · intro now2 tok u ex htok hne hlt2
    simp [getAuthenticatedSession, htok, hne, hlt2]

/-- Witness for the amended claim C5 with no stored session. -/
theorem session_gate_amended_witness :
    getNotes (.ok none) 5 [] = .error "No valid session found. Please log in again." :=
  (session_gate_amended (.ok none) 5 [] "No valid session found. Please log in again." rfl
    "x" "n1" "t" "c" (by decide) (by decide) (by decide) (by decide)).1

/-- Claim C6 counterexample: a remote error with an unrecognized code and an empty
message surfaces with the generic fallback message, not with the original (empty)
remote message verbatim. -/
theorem translate_fallback_counterexample :
    makeAuthenticatedRequest sess1 1000
      ({ data := none, error := some { code := some "XYZ", message := some "" } } :
        RemoteResponse NoteRow) = .error fallbackMsg ∧
    fallbackMsg ≠ "" := by decide

/-- Claim C6 (amended): with a valid session, a remote error is surfaced through the
translation: code PGRST301 or a JWT-mentioning message maps to the auth-failure
message; otherwise code PGRST116 or an RLS-mentioning message maps to the
access-denied message (the token check takes precedence); every other remote error
surfaces with its original message verbatim when that message is non-empty, and with
the generic fallback message when the remote message is absent or empty. -/
theorem translateError_spec (sess : GetSessionResult) (now : Nat) (s : ValidSession)
    (h : getAuthenticatedSession sess now = .ok s) (op : RemoteResponse NoteRow)
    (e : RemoteError) (he : op.error = some e) :
    makeAuthenticatedRequest sess now op = .error (translateError e) ∧
    ((e.code = some "PGRST301" ∨ msgIncludes e.message "JWT" = true) →
      translateError e = "Authentication failed. Please log in again.") ∧
    (¬(e.code = some "PGRST301" ∨ msgIncludes e.message "JWT" = true) →
      (e.code = some "PGRST116" ∨ msgIncludes e.message "RLS" = true) →
      translateError e = "Access denied. You can only access your own notes.") ∧
    (¬(e.code = some "PGRST301" ∨ msgIncludes e.message "JWT" = true) →
      ¬(e.code = some "PGRST116" ∨ msgIncludes e.message "RLS" = true) →
      ((∀ m, e.message = some m → m ≠ "" → translateError e = m) ∧
        ((e.message = none ∨ e.message = some "") → translateError e = fallbackMsg))) := by
  refine ⟨?_, ?_, ?_, ?_⟩
  · simp only [makeAuthenticatedRequest, h, he]
  · intro hc
    have hb : (e.code == some "PGRST301" || msgIncludes e.message "JWT") = true := by
      rcases hc with hc | hc <;> simp [hc]
    simp [translateError, hb]
  · intro hc1 hc2
    have hb1 : (e.code == some "PGRST301" || msgIncludes e.message "JWT") = false := by
      push_neg at hc1
      simp [hc1.1, hc1.2]
    have hb2 : (e.code == some "PGRST116" || msgIncludes e.message "RLS") = true := by
      rcases hc2 with hc | hc <;> simp [hc]
    simp [translateError, hb1, hb2]
  · intro hc1 hc2
    have hb1 : (e.code == some "PGRST301" || msgIncludes e.message "JWT") = false := by
      push_neg at hc1
      simp [hc1.1, hc1.2]
    have hb2 : (e.code == some "PGRST116" || msgIncludes e.message "RLS") = false := by
      push_neg at hc2
      simp [hc2.1, hc2.2]
    constructor
    · intro m hm hmne
      rw [hm] at hb1 hb2
      simp [translateError, hm, hb1, hb2, hmne]
    · rintro (hm | hm) <;> (rw [hm] at hb1 hb2; simp [translateError, hm, hb1, hb2])

/-- Witness for the amended claim C6 at a concrete unclassified remote error. -/
theorem translateError_spec_witness :
    makeAuthenticatedRequest sess1 1000
      ({ data := none, error := some ⟨some "XYZ", some "boom"⟩ } : RemoteResponse NoteRow) =
      .error (translateError ⟨some "XYZ", some "boom"⟩) :=
  (translateError_spec sess1 1000 vsess1 rfl
    ({ data := none, error := some ⟨some "XYZ", some "boom"⟩ } : RemoteResponse NoteRow)
    ⟨some "XYZ", some "boom"⟩ rfl).1

/-- Claim C7: for valid inputs and a valid session, createNote submits the note with
user id forced to the session identity and returns the created row with the
server-assigned id and timestamps; a subsequent list contains exactly one note with
the new id, that note carries the trimmed values and the identity of the caller,
and previously owned notes are still listed. -/
theorem createNote_then_list (sess : GetSessionResult) (now : Nat) (db : List NoteRow)
    (s : ValidSession) (h : getAuthenticatedSession sess now = .ok s)
    (newId title content : String)
    (ht : jsTrim title ≠ "") (hlt : ¬ title.length > 100) (hlc : ¬ content.length > 10000)
    (hfresh : ∀ r ∈ db, r.id ≠ newId) :
    createNote sess now db newId title content =
      (.ok (insertedRow s now newId title content),
        db ++ [insertedRow s now newId title content]) ∧
    (insertedRow s now newId title content).user_id = s.user.id ∧
    (insertedRow s now newId title content).title = jsTrim title ∧
    (insertedRow s now newId title content).content = jsTrim content ∧
    (insertedRow s now newId title content).id = newId ∧
    ∃ l, getNotes sess now (db ++ [insertedRow s now newId title content]) = .ok l ∧
      List.countP (fun r => r.id == newId) l = 1 ∧
      insertedRow s now newId title content ∈ l ∧
      (∀ r ∈ l, r.id = newId → r = insertedRow s now newId title content) ∧
      (∀ r ∈ db, r.user_id = s.user.id → r ∈ l) := by
  refine ⟨?_, rfl, rfl, rfl, rfl,
    remoteSelectNotes (db ++ [insertedRow s now newId title content]) s.user.id,
    ?_, ?_, ?_, ?_, ?_⟩
  · simp only [createNote, if_neg ht, if_neg hlt, if_neg hlc, h, makeAuthenticatedRequest]
  · simp only [getNotes, h, makeAuthenticatedRequest]
  · rw [remoteSelectNotes,
      (List.perm_insertionSort updatedDesc _).countP_eq (fun r => r.id == newId),
      List.filter_append, List.countP_append]
    have h1 : List.countP (fun r => r.id == newId)
        (db.filter fun r => r.user_id == s.user.id) = 0 := by
      rw [List.countP_eq_zero]
      intro a ha
      have hadb := (List.mem_filter.mp ha).1
      simp only [beq_iff_eq]
      exact hfresh a hadb
    have h2 : ([insertedRow s now newId title content].filter fun r => r.user_id == s.user.id)
        = [insertedRow s now newId title content] := by
      simp [insertedRow]
    rw [h1, h2]
    simp [insertedRow, List.countP_cons]
  · rw [remoteSelectNotes, List.mem_insertionSort, List.mem_filter]
    refine ⟨List.mem_append_right _ (List.mem_singleton.mpr rfl), by simp [insertedRow]⟩
  · intro r hr hrid
    rw [remoteSelectNotes, List.mem_insertionSort, List.mem_filter] at hr
    rcases List.mem_append.mp hr.1 with hrdb | hrnew
    · exact absurd hrid (hfresh r hrdb)
    · exact List.mem_singleton.mp hrnew
  · intro r hr hu
    rw [remoteSelectNotes, List.mem_insertionSort, List.mem_filter]
    exact ⟨List.mem_append_left _ hr, by simp [hu]⟩

/-- Witness for claim C7 at a concrete create on an empty table. -/
theorem createNote_then_list_witness :
    createNote sess1 1000 [] "n7" "ok" "x" =
      (.ok (insertedRow vsess1 1000 "n7" "ok" "x"), [insertedRow vsess1 1000 "n7" "ok" "x"]) :=
  (createNote_then_list sess1 1000 [] vsess1 rfl "n7" "ok" "x" (by decide) (by decide)
    (by decide) (by simp)).1

/-- Claim C8: for a valid session, the list operation succeeds; the returned list is
sorted by `updated_at` descending — pairwise, hence each element has an
`updated_at` at least that of the next — and it contains exactly the rows of the
table owned by the current identity. -/
theorem getNotes_sorted_owned (sess : GetSessionResult) (now : Nat) (db : List NoteRow)
    (s : ValidSession) (h : getAuthenticatedSession sess now = .ok s) :
    ∃ l, getNotes sess now db = .ok l ∧
      List.Sorted updatedDesc l ∧
      List.Chain' (fun a b => b.updated_at ≤ a.updated_at) l ∧
      ∀ r, r ∈ l ↔ (r ∈ db ∧ r.user_id = s.user.id) := by
  refine ⟨remoteSelectNotes db s.user.id, ?_, ?_, ?_, ?_⟩
  · simp only [getNotes, h, makeAuthenticatedRequest]
  · exact List.sorted_insertionSort updatedDesc _
  · exact (List.sorted_insertionSort updatedDesc _).chain'
  · intro r
    unfold remoteSelectNotes
    rw [List.mem_insertionSort, List.mem_filter, beq_iff_eq]

/-- Witness for claim C8 at a concrete one-row table. -/
theorem getNotes_sorted_owned_witness :
    ∃ l, getNotes sess1 1000 [note1] = .ok l ∧
      List.Sorted updatedDesc l ∧
      List.Chain' (fun a b => b.updated_at ≤ a.updated_at) l ∧
      ∀ r, r ∈ l ↔ (r ∈ [note1] ∧ r.user_id = vsess1.user.id) :=
  getNotes_sorted_owned sess1 1000 [note1] vsess1 rfl

/-- Claim C9: verifyNoteOwnership is a total Boolean function (so it never throws);
every session-gate error is swallowed and yields false, and it returns true only
when the table holds a row with the given id owned by the current identity. -/
theorem verifyNoteOwnership_spec (sess : GetSessionResult) (now : Nat) (db : List NoteRow)
    (noteId : String) :
    (∀ e, getAuthenticatedSession sess now = .error e →
      verifyNoteOwnership sess now db noteId = false) ∧
    (verifyNoteOwnership sess now db noteId = true →
      ∃ s r, getAuthenticatedSession sess now = .ok s ∧ r ∈ db ∧
        r.id = noteId ∧ r.user_id = s.user.id) := by
  constructor
  · intro e he
    simp [verifyNoteOwnership, he]
  · intro h
    cases hs : getAuthenticatedSession sess now with
    | error e => rw [verifyNoteOwnership, hs] at h; exact absurd h (by simp)
    | ok s =>
      rw [verifyNoteOwnership, hs] at h
      simp only [singleRow_ok_iff] at h
      obtain ⟨r, hr⟩ := h
      have hmem : r ∈ (db.filter fun r => r.id == noteId && r.user_id == s.user.id) := by
        rw [hr]; exact List.mem_singleton.mpr rfl
      rw [List.mem_filter] at hmem
      obtain ⟨hdb, hp⟩ := hmem
      simp only [Bool.and_eq_true, beq_iff_eq] at hp
      exact ⟨s, r, rfl, hdb, hp.1, hp.2⟩

/-- Witness for claim C9 at a concrete owned note. -/
theorem verifyNoteOwnership_spec_witness :
    ∃ s r, getAuthenticatedSession sess1 1000 = .ok s ∧ r ∈ [note1] ∧
      r.id = "n1" ∧ r.user_id = s.user.id :=
  (verifyNoteOwnership_spec sess1 1000 [note1] "n1").2 (by decide)

/-- Claim C10: createNote and updateNote store the trimmed title and content, while
the 100-character and 10000-character limits are checked against the untrimmed
inputs: a title whose untrimmed length exceeds 100 is rejected regardless of its
trimmed length (likewise for content), and on rejection the table is unchanged. -/
theorem trim_untrimmed_limits (sess : GetSessionResult) (now : Nat) (db : List NoteRow)
    (s : ValidSession) (h : getAuthenticatedSession sess now = .ok s)
    (newId id title content : String) (hid : id ≠ "") :
    ((jsTrim title ≠ "" ∧ ¬ title.length > 100 ∧ ¬ content.length > 10000) →
      ((createNote sess now db newId title content).1 =
        .ok ({ id := newId, title := jsTrim title, content := jsTrim content,
               user_id := s.user.id, created_at := now, updated_at := now } : NoteRow) ∧
       (∀ r ∈ db, r.id = id → r.user_id = s.user.id →
         ({ r with title := jsTrim title, content := jsTrim content,
                   updated_at := now } : NoteRow) ∈
           (updateNote sess now db id title content).2))) ∧
    (jsTrim title ≠ "" → title.length > 100 →
      ((createNote sess now db newId title content).1 =
        .error "Note title must be less than 100 characters." ∧
       (updateNote sess now db id title content).1 =
        .error "Note title must be less than 100 characters." ∧
       (createNote sess now db newId title content).2 = db ∧
       (updateNote sess now db id title content).2 = db)) ∧
    (jsTrim title ≠ "" → ¬ title.length > 100 → content.length > 10000 →
      ((createNote sess now db newId title content).1 =
        .error "Note content must be less than 10,000 characters." ∧
       (updateNote sess now db id title content).1 =
        .error "Note content must be less than 10,000 characters.")) := by
  refine ⟨?_, ?_, ?_⟩
  · rintro ⟨ht, hlt, hlc⟩
    constructor
    · simp only [createNote, if_neg ht, if_neg hlt, if_neg hlc, h, makeAuthenticatedRequest,
        insertedRow]
    · intro r hr hrid hru
      simp only [updateNote, if_neg hid, if_neg ht, if_neg hlt, if_neg hlc, h]
      refine List.mem_map.mpr ⟨r, hr, ?_⟩
      rw [if_pos]
      simp only [Bool.and_eq_true, beq_iff_eq]
      exact ⟨hrid, hru⟩
  · intro ht h100
    refine ⟨?_, ?_, ?_, ?_⟩
    · simp only [createNote, if_neg ht, if_pos h100]
    · simp only [updateNote, if_neg hid, if_neg ht, if_pos h100]
    · simp only [createNote, if_neg ht, if_pos h100]
    · simp only [updateNote, if_neg hid, if_neg ht, if_pos h100]
  · intro ht hlt h10k
    constructor
    · simp only [createNote, if_neg ht, if_neg hlt, if_pos h10k]
    · simp only [updateNote, if_neg hid, if_neg ht, if_neg hlt, if_pos h10k]

/-- Witness for claim C10 at a padded title of untrimmed length 110 and trimmed
length 60: rejected by the untrimmed limit. -/
theorem trim_untrimmed_limits_witness :
    ((createNote sess1 1000 [] "n1" longPadded "c").1 =
      .error "Note title must be less than 100 characters." ∧
     (updateNote sess1 1000 [] "n1" longPadded "c").1 =
      .error "Note title must be less than 100 characters." ∧
     (createNote sess1 1000 [] "n1" longPadded "c").2 = [] ∧
     (updateNote sess1 1000 [] "n1" longPadded "c").2 = []) ∧
    longPadded.length > 100 ∧ (jsTrim longPadded).length ≤ 100 :=
  ⟨(trim_untrimmed_limits sess1 1000 [] vsess1 rfl "n1" "n1" longPadded "c" (by decide)).2.1
     (by decide) (by decide), by decide, by decide⟩

end NotesApp
